import Mathlib

/-!
Verification development for the traffic-analytics backend of this repository
(files backend/analytics.py and backend/chat_service.py).

The Python code is shallowly embedded: each method body is translated into a
Lean function over explicit state.  Machine-level concerns that the claims do
not touch (video frames, the YOLO model, the HTTP layer) are represented by
opaque payload parameters (oracles) supplied to the embedded functions:
  - random draws become an indexed oracle of natural numbers;
  - the external text-generation call becomes a function returning
    Except (exception) or a plain string (normal return);
  - the Overpass HTTP fetch becomes an Except-valued response, where the
    error case covers every exception caught by the try block of
    fetch_road_geometry (network error, timeout, malformed body).
Python floats for coordinates and weights are modelled as rationals, ISO
timestamp strings as integer instants (fromisoformat is monotone and
injective on the produced strings), and Python dicts as insertion-ordered
association lists with in-place overwrite (dictInsert below).
-/

namespace TrafficAI

/-- The four vehicle classes of self.vehicle_types in analytics.py. -/
inductive VehicleType where
  | car | bike | bus | truck
deriving DecidableEq, Repr

/-- self.vehicle_types = ["car", "bike", "bus", "truck"]. -/
def vehicle_types : List VehicleType := [.car, .bike, .bus, .truck]

/-- A dict {car: _, bike: _, bus: _, truck: _} of per-type counts, as built by
both the distribution aggregation and the per-camera breakdown. -/
structure TypeCounts where
  car : Nat
  bike : Nat
  bus : Nat
  truck : Nat
deriving DecidableEq, Repr

/-- Reading the per-type dict at a vehicle-type key. -/
def TypeCounts.get (t : TypeCounts) : VehicleType → Nat
  | .car => t.car
  | .bike => t.bike
  | .bus => t.bus
  | .truck => t.truck

/-- The all-zero dict {v: 0 for v in self.vehicle_types}. -/
def TypeCounts.zero : TypeCounts := ⟨0, 0, 0, 0⟩

/-- by_type[v] += n, the increment statement of the distribution loop. -/
def TypeCounts.bump (t : TypeCounts) (v : VehicleType) (n : Nat) : TypeCounts :=
  match v with
  | .car => { t with car := t.car + n }
  | .bike => { t with bike := t.bike + n }
  | .bus => { t with bus := t.bus + n }
  | .truck => { t with truck := t.truck + n }

/-- One entry of self.data: the event dict appended by _process_cameras (real
mode, with track_ids) or _generate_mock_data_for_other_cams (simulated mode,
where the absent track_ids key is read back as [] via d.get). -/
structure DetectionEvent where
  camera_id : String
  camera_name : String
  lat : ℚ
  lng : ℚ
  vehicle_type : VehicleType
  count : Nat
  track_ids : List Nat
  timestamp : Int
deriving DecidableEq, Repr

/-- One entry of self.camera_config.  lanes is optional because the snapshot
code reads it with cam.get("lanes", 2). -/
structure CameraConfig where
  id : String
  lat : ℚ
  lng : ℚ
  name : String
  file : String
  source_type : String
  lanes : Option Nat
deriving DecidableEq, Repr

/-- The single hardcoded camera entry of TrafficAnalyzer.__init__. -/
def camDefault : CameraConfig :=
  { id := "CAM_002", lat := 10.0229, lng := 76.3095, name := "Seaport-Airport Rd",
    file := "traffic_cam2.mp4", source_type := "live_cctv", lanes := some 8 }

/-- The hardcoded self.camera_config of TrafficAnalyzer.__init__. -/
def camera_config_default : List CameraConfig := [camDefault]

/-- One entry of self.dummy_nodes, as built in __init__ from road points. -/
structure DummyNode where
  lat : ℚ
  lng : ℚ
  id : String
  name : String
  source_type : String
deriving DecidableEq, Repr

/-- The congestion tier strings assigned by the classification loop. -/
inductive Intensity where
  | low | moderate | congestion
deriving DecidableEq, Repr

/-- A location dict of the aggregate before the classification loop has added
the intensity keys: lat, lng, name, total, lanes, breakdown, source_type.
The id key that dummy-node dicts additionally carry is not needed by any
claim and is dropped from the embedding. -/
structure PreLoc where
  lat : ℚ
  lng : ℚ
  name : String
  total : Nat
  lanes : Nat
  breakdown : TypeCounts
  source_type : String
deriving DecidableEq, Repr

/-- A location dict after the classification loop: the LocationSnapshot of
the aggregate output. -/
structure LocationSnapshot extends PreLoc where
  intensity : Intensity
  weighted_intensity : ℚ
deriving DecidableEq, Repr

/-- The return value of get_latest_data. -/
structure AggregateOutput where
  total_vehicles : Nat
  distribution : TypeCounts
  locations : List LocationSnapshot
deriving DecidableEq, Repr

/-- The mutable fields of TrafficAnalyzer that get_latest_data can reach:
self.data, self.unique_ids, self.camera_config, self.dummy_nodes,
self.current_frames (frame bytes are opaque, modelled as byte lists). -/
structure AnalyzerState where
  data : List DetectionEvent
  unique_ids : Finset Nat
  camera_config : List CameraConfig
  dummy_nodes : List DummyNode
  current_frames : List (String × List Nat)

/-- Python dict assignment d[k] = v on an insertion-ordered association list:
overwrite in place if the key is present, else append at the end. -/
def dictInsert {κ α : Type} [BEq κ] (k : κ) (v : α) : List (κ × α) → List (κ × α)
  | [] => [(k, v)]
  | (k', v') :: rest =>
      if k' == k then (k, v) :: rest else (k', v') :: dictInsert k v rest

/-- Python d.get(k): the value at the key, if present. -/
def dictGet? {κ α : Type} [BEq κ] (k : κ) (d : List (κ × α)) : Option α :=
  (d.find? (fun p => p.1 == k)).map (·.2)

/-! ## Event Store (append + prune)

In analytics.py every prune site is the single statement
  if len(self.data) > CAP: self.data.pop(0)
with CAP = 2000 in _process_cameras (twice: once right after the appends,
once in the frame-storage lock section) and CAP = 1000 in
_generate_mock_stream. -/

/-- One prune check: pop the front element if the length exceeds the cap. -/
def pruneOnce (cap : Nat) (data : List DetectionEvent) : List DetectionEvent :=
  if cap < data.length then data.drop 1 else data

/-- Real mode, first lock section of an AI frame: append the tick events to
the end, then run one prune check with cap 2000. -/
def appendEventsReal (data newEvents : List DetectionEvent) : List DetectionEvent :=
  pruneOnce 2000 (data ++ newEvents)

/-- Real mode, frame-storage lock section: one more prune check, cap 2000. -/
def frameStorePrune (data : List DetectionEvent) : List DetectionEvent :=
  pruneOnce 2000 data

/-- The effect of one real-mode AI frame on self.data: the appends and both
prune checks of that iteration. -/
def realFrameTick (data newEvents : List DetectionEvent) : List DetectionEvent :=
  frameStorePrune (appendEventsReal data newEvents)

/-- The effect of one simulated-mode tick on self.data: the appends made by
_generate_mock_data_for_other_cams followed by one prune check, cap 1000. -/
def mockTick (data newEvents : List DetectionEvent) : List DetectionEvent :=
  pruneOnce 1000 (data ++ newEvents)

/-- A run of simulated-mode ticks from a given store, each tick carrying the
list of events it appends. -/
def mockRun (ticks : List (List DetectionEvent)) (init : List DetectionEvent) :
    List DetectionEvent :=
  ticks.foldl mockTick init

/-! ## Real-mode event production (_process_cameras count logic) -/

/-- The label filter and renaming of the tracking loop:
label in [car, motorcycle, bus, truck], with motorcycle stored as bike.
The argument is the already lower-cased model.names entry for the box. -/
def labelToType (label : String) : Option VehicleType :=
  if label == "car" then some .car
  else if label == "motorcycle" then some .bike
  else if label == "bus" then some .bus
  else if label == "truck" then some .truck
  else none

/-- The pair of per-type dicts current_counts / current_ids built by the
tracking loop. -/
structure TickTally where
  counts : VehicleType → Nat
  ids : VehicleType → List Nat

/-- One iteration of the loop over zip(track_ids, clss): bump the count of
the mapped type and append the track id to its list; other labels skipped. -/
def tallyStep (acc : TickTally) (det : Nat × String) : TickTally :=
  match labelToType det.2 with
  | some t =>
      { counts := fun v => if v = t then acc.counts v + 1 else acc.counts v,
        ids := fun v => if v = t then acc.ids v ++ [det.1] else acc.ids v }
  | none => acc

/-- The whole tracking loop, starting from all-zero counts and empty lists. -/
def tallyDetections (dets : List (Nat × String)) : TickTally :=
  dets.foldl tallyStep { counts := fun _ => 0, ids := fun _ => [] }

/-- The events _process_cameras appends to self.data for one camera in one AI
frame: nothing when the summed counts are 0, otherwise one event per vehicle
type of positive count, in the fixed vehicle_types order, carrying that
count and the collected track ids.  dets are the (track_id, label) pairs of
the tracking pass; ts is the tick timestamp. -/
def emittedEvents (cam : CameraConfig) (ts : Int) (dets : List (Nat × String)) :
    List DetectionEvent :=
  let tally := tallyDetections dets
  if 0 < (vehicle_types.map tally.counts).sum then
    vehicle_types.filterMap (fun v =>
      if 0 < tally.counts v then
        some { camera_id := cam.id, camera_name := cam.name, lat := cam.lat,
               lng := cam.lng, vehicle_type := v, count := tally.counts v,
               track_ids := tally.ids v, timestamp := ts }
      else none)
  else []

/-! ## Aggregation (get_latest_data) -/

/-- The distribution loop: for d in self.data, by_type[type] += count. -/
def distributionOf (data : List DetectionEvent) : TypeCounts :=
  data.foldl (fun acc d => acc.bump d.vehicle_type d.count) .zero

/-- recent_data: events of this camera whose timestamp is strictly within the
trailing 5-second window from now (future timestamps also satisfy the
Python timedelta comparison, as they do here over Int). -/
def recent_data (data : List DetectionEvent) (camId : String) (now : Int) :
    List DetectionEvent :=
  data.filter (fun d => d.camera_id == camId && decide (now - d.timestamp < 5))

/-- The current live load of a camera: the number of distinct track ids
over the recent window (the cardinality of the Python set built by update);
if that is 0 while recent events exist, the fallback takes, over the set of
distinct timestamps, the largest per-timestamp sum of counts; with no
recent events the load is 0.  List.dedup.length is the cardinality of the
set of elements, and foldr max 0 is the Python max of the (always
nonempty here) frame_counts list of naturals. -/
def current_load (data : List DetectionEvent) (camId : String) (now : Int) : Nat :=
  let recent := recent_data data camId now
  if recent.isEmpty then 0
  else
    let idsCard := ((recent.map (·.track_ids)).flatten).dedup.length
    if idsCard = 0 then
      let tss := (recent.map (·.timestamp)).dedup
      let frame_counts :=
        tss.map (fun ts =>
          ((recent.filter (fun d => d.timestamp == ts)).map (·.count)).sum)
      frame_counts.foldr max 0
    else idsCard

/-- The cumulative per-type breakdown over the cam_data of one camera:
{v: sum of counts of events of that type for v in vehicle_types}. -/
def breakdownOf (cam_data : List DetectionEvent) : TypeCounts :=
  { car := ((cam_data.filter (fun d => d.vehicle_type == .car)).map (·.count)).sum,
    bike := ((cam_data.filter (fun d => d.vehicle_type == .bike)).map (·.count)).sum,
    bus := ((cam_data.filter (fun d => d.vehicle_type == .bus)).map (·.count)).sum,
    truck := ((cam_data.filter (fun d => d.vehicle_type == .truck)).map (·.count)).sum }

/-- The by_camera[cam.id] dict built for one configured camera: position and
name from the config entry, total = the live load, lanes with default 2,
breakdown cumulative over the buffered events of the camera.  The
source_type key is absent until the later loop assigns it; the placeholder
empty string is never observable because assignSourceType overwrites it. -/
def camSnapshot (data : List DetectionEvent) (cam : CameraConfig) (now : Int) : PreLoc :=
  let cam_data := data.filter (fun d => d.camera_id == cam.id)
  { lat := cam.lat, lng := cam.lng, name := cam.name,
    total := current_load data cam.id now,
    lanes := cam.lanes.getD 2,
    breakdown := breakdownOf cam_data,
    source_type := "" }

/-- The by_camera dict: one insertion per configured camera, keyed by id. -/
def by_camera (st : AnalyzerState) (now : Int) : List (String × PreLoc) :=
  st.camera_config.foldl
    (fun acc cam => dictInsert cam.id (camSnapshot st.data cam now) acc) []

/-- The loop assigning source_type to each real location: the source_type of
the first config entry of the same name, defaulting to live_cctv. -/
def assignSourceType (config : List CameraConfig) (loc : PreLoc) : PreLoc :=
  { loc with source_type :=
      ((config.find? (fun c => c.name == loc.name)).map (·.source_type)).getD "live_cctv" }

/-- The per-query dict built for one simulated node: node.copy() updated with
the freshly drawn total, lanes = 2, and the all-car breakdown. -/
def dummySnapshot (node : DummyNode) (count : Nat) : PreLoc :=
  { lat := node.lat, lng := node.lng, name := node.name,
    total := count, lanes := 2,
    breakdown := { car := count, bike := 0, bus := 0, truck := 0 },
    source_type := "simulated_cctv" }

/-- The lane-based classification loop body: thresholds lanes*2 and lanes*4,
assigning intensity and weighted_intensity. -/
def classifyLoc (loc : PreLoc) : LocationSnapshot :=
  let threshold_green := loc.lanes * 2
  let threshold_yellow := loc.lanes * 4
  if loc.total ≤ threshold_green then
    { toPreLoc := loc, intensity := .low, weighted_intensity := 0.2 }
  else if loc.total ≤ threshold_yellow then
    { toPreLoc := loc, intensity := .moderate, weighted_intensity := 0.5 }
  else
    { toPreLoc := loc, intensity := .congestion, weighted_intensity := 1.0 }

/-- get_latest_data.  now is the query instant; draw is the random oracle:
draw i is the value random.randint(5, 50) returns for the i-th simulated
node of this query.  The dashboard total reads by_camera["CAM_002"].total,
a key the classification loop never touches, so reading the
pre-classification dict is exact. -/
def get_latest_data (st : AnalyzerState) (now : Int) (draw : Nat → Nat) :
    AggregateOutput :=
  let total_vehicles := st.unique_ids.card
  let by_type := distributionOf st.data
  let byCam := by_camera st now
  let real_locations := (byCam.map (·.2)).map (assignSourceType st.camera_config)
  let current_dummy_data :=
    st.dummy_nodes.enum.map (fun p => dummySnapshot p.2 (draw p.1))
  let all_locations := real_locations ++ current_dummy_data
  if all_locations.isEmpty then
    { total_vehicles := total_vehicles, distribution := by_type, locations := [] }
  else
    let dashboard_total :=
      match dictGet? "CAM_002" byCam with
      | some loc => loc.total
      | none => 0
    { total_vehicles := dashboard_total, distribution := by_type,
      locations := all_locations.map classifyLoc }

/-- get_latest_data as a state transformer.  The method body contains no
assignment to a self attribute; the only in-place updates it performs hit
query-local dicts (heading = node.copy() is updated, not the stored node;
the real-location and classification loops update the dicts owned by the
query-local by_camera), so threading the state through the statement
sequence returns it unchanged. -/
def get_latest_data_st (st : AnalyzerState) (now : Int) (draw : Nat → Nat) :
    AggregateOutput × AnalyzerState :=
  (get_latest_data st now draw, st)

/-! ## Chat service (chat_service.py) -/

/-- The canned reply of get_response when self.model is None. -/
def apologyMsg : String :=
  "I\x27m sorry, but I can\x27t connect to my brain right now (Gemini API Key missing). Please check the server logs."

/-- The fallback reply of the except branch of get_response. -/
def errorMsg : String :=
  "I encountered an error while processing your request. Please try again later."

/-- Intensity back to the stored lowercase string. -/
def Intensity.str : Intensity → String
  | .low => "low"
  | .moderate => "moderate"
  | .congestion => "congestion"

/-- The stored intensity string after Python str.upper(). -/
def Intensity.upper : Intensity → String
  | .low => "LOW"
  | .moderate => "MODERATE"
  | .congestion => "CONGESTION"

/-- One line of the location summary: - name: count vehicles (INTENSITY). -/
def locSummary (loc : LocationSnapshot) : String :=
  "- " ++ loc.name ++ ": " ++ toString loc.total ++ " vehicles (" ++
    loc.intensity.upper ++ ")"

/-- ChatService._construct_prompt: the fixed template filled from the
aggregate (data.get defaults never fire on an AggregateOutput, which always
carries its fields). -/
def construct_prompt (data : AggregateOutput) : String :=
  let loc_text := String.intercalate "\n" (data.locations.map locSummary)
  "\nYou are TrafficAI, an intelligent assistant for specific smart city traffic traffic monitoring system.\nHere is the real-time traffic data for Kochi, India:\n\nGlobal Status:\n- Total Vehicles Detected across all sensors: " ++
    toString data.total_vehicles ++
    "\n\nLocation Specifics:\n" ++ loc_text ++
    "\n\nInstructions:\n1. Answer the user\x27s question concisely based strictly on the above data.\n2. If the user asks about traffic conditions, cite specific numbers and locations.\n3. If a location is \x27CONGESTION\x27 or \x27HIGH\x27, warn the user.\n4. Keep the tone professional, helpful, and futuristic.\n5. If the answer is not in the data, say you don\x27t have that information.\n"

/-- The full prompt assembled inside the try block of get_response. -/
def full_prompt (ctx : AggregateOutput) (user_query : String) : String :=
  construct_prompt ctx ++ "\n\nUser Question: " ++ user_query ++ "\nAnswer:"

/-- ChatService.get_response.  model is self.model (None when the credential
is missing or configuration failed); gen is the external generate_content
call, whose Except.error case is any exception it raises (the response.text
read included).  The try block around the call catches every exception and
returns errorMsg. -/
def get_response (model : Option Unit) (gen : String → Except String String)
    (user_query : String) (traffic_context : AggregateOutput) : String :=
  match model with
  | none => apologyMsg
  | some _ =>
      match gen (full_prompt traffic_context user_query) with
      | .ok text => text
      | .error _ => errorMsg

/-! ## Road geometry (fetch_road_geometry and the __init__ fallback) -/

/-- One element of the parsed Overpass response: a node with id and
coordinates, or a way with its node-id list. -/
inductive OsmElement where
  | node (id : Nat) (lat lng : ℚ)
  | way (nodeIds : List Nat)
deriving DecidableEq, Repr

/-- The nodes dict comprehension {id: (lat, lon) for nodes}. -/
def osmNodesDict (elements : List OsmElement) : List (Nat × (ℚ × ℚ)) :=
  elements.foldl
    (fun acc el =>
      match el with
      | .node i la ln => dictInsert i (la, ln) acc
      | .way _ => acc) []

/-- Python slice way_nodes[::2]: every other element, starting at index 0. -/
def everyOther {α : Type} : List α → List α
  | [] => []
  | [a] => [a]
  | a :: _ :: rest => a :: everyOther rest

/-- fetch_road_geometry.  resp is the outcome of the whole fetch-and-parse:
Except.error stands for any exception in the try block (network failure,
timeout, malformed JSON or missing keys), on which the except branch
returns []; Except.ok carries the parsed element list, from which points
of every sampled way node present in the nodes dict are appended in order. -/
def fetch_road_geometry (resp : Except Unit (List OsmElement)) : List (ℚ × ℚ) :=
  match resp with
  | .error _ => []
  | .ok elements =>
      let nodes := osmNodesDict elements
      let ways := elements.filterMap (fun el =>
        match el with
        | .way ns => some ns
        | .node _ _ _ => none)
      ways.foldl
        (fun pts wayNodes =>
          pts ++ ((everyOther wayNodes).filterMap (fun nid => dictGet? nid nodes))) []

/-- The hardcoded fallback coordinate list of __init__. -/
def fallback_road_points : List (ℚ × ℚ) :=
  [(10.0300, 76.3115), (10.0290, 76.3116), (10.0280, 76.3117),
   (10.0270, 76.3118), (10.0260, 76.3119), (10.0250, 76.3120),
   (10.0240, 76.3121), (10.0230, 76.3122), (10.0220, 76.3123),
   (10.0210, 76.3124),
   (10.0250, 76.3090), (10.0250, 76.3100), (10.0250, 76.3110),
   (10.0252, 76.3130), (10.0253, 76.3140), (10.0255, 76.3150)]

/-- The __init__ construction of self.dummy_nodes from the fetched points:
substitute the fallback list when the fetch came back empty, then build one
node per point. -/
def initDummyNodes (fetched : List (ℚ × ℚ)) : List DummyNode :=
  let road_points := if fetched.isEmpty then fallback_road_points else fetched
  road_points.enum.map (fun p =>
    { lat := p.2.1, lng := p.2.2, id := "DUMMY_" ++ toString p.1,
      name := "Sensor Node #" ++ toString (p.1 + 1),
      source_type := "simulated_cctv" })

/-! ## Specification-side helper definitions -/

/-- Ordering of the congestion tiers for the monotonicity statement:
low before moderate before congestion. -/
def Intensity.rank : Intensity → Nat
  | .low => 0
  | .moderate => 1
  | .congestion => 2

/-- The union of the track-id sets of a list of events, read off the
specification text (union of all track_ids across these events). -/
def specUnionIds (evs : List DetectionEvent) : Finset Nat :=
  evs.foldr (fun d acc => d.track_ids.toFinset ∪ acc) ∅

/-- The sum of the counts of the recent events sharing one timestamp, read
off the specification text (group recent events by identical timestamp,
sum counts within each timestamp group). -/
def specGroupSum (evs : List DetectionEvent) (ts : Int) : Nat :=
  ((evs.filter (fun d => d.timestamp == ts)).map (·.count)).sum

/-! ## Concrete sample inputs for witnesses and counterexamples -/

/-- Sample real-mode event: camera CAM_002, 3 cars with ids [1, 2, 3] at
instant 0 (the scenario of the specification). -/
def evA : DetectionEvent :=
  { camera_id := "CAM_002", camera_name := "Seaport-Airport Rd", lat := 10.0229,
    lng := 76.3095, vehicle_type := .car, count := 3, track_ids := [1, 2, 3],
    timestamp := 0 }

/-- Sample real-mode event: 2 cars with ids [2, 3, 4] at instant 1. -/
def evB : DetectionEvent :=
  { evA with count := 2, track_ids := [2, 3, 4], timestamp := 1 }

/-- Sample simulated-mode event (no track_ids key, count 3, instant 0). -/
def evM : DetectionEvent :=
  { evA with count := 3, track_ids := [] }

/-- Sample simulated node. -/
def sampleNode : DummyNode :=
  { lat := 10.03, lng := 76.31, id := "DUMMY_0", name := "Sensor Node #1",
    source_type := "simulated_cctv" }

/-- Sample state: the default camera configuration, the two sample events in
the buffer, four lifetime ids, one simulated node, no frames. -/
def stSample : AnalyzerState :=
  { data := [evA, evB], unique_ids := {1, 2, 3, 4},
    camera_config := camera_config_default,
    dummy_nodes := [sampleNode],
    current_frames := [] }

/-- The snapshot that stSample produces for the configured camera at query
instant 1: live load 4 (ids {1, 2, 3, 4}), lanes 8, 5 cars cumulative,
classified low. -/
def sampleRealLoc : LocationSnapshot :=
  { lat := 10.0229, lng := 76.3095, name := "Seaport-Airport Rd", total := 4,
    lanes := 8, breakdown := ⟨5, 0, 0, 0⟩, source_type := "live_cctv",
    intensity := .low, weighted_intensity := 0.2 }

/-- A full real-mode store: 2000 buffered events. -/
def fullStore : List DetectionEvent := List.replicate 2000 evA

/-- A maximal real-mode tick batch: one event per vehicle type. -/
def evBatch : List DetectionEvent :=
  [evA, { evA with vehicle_type := .bike }, { evA with vehicle_type := .bus },
    { evA with vehicle_type := .truck }]

/-- Sample state with nothing configured at all. -/
def stEmpty : AnalyzerState :=
  { data := [], unique_ids := ∅, camera_config := [], dummy_nodes := [],
    current_frames := [] }

/-- The event the real-mode tick emits first on the sample detections
[(1, car), (2, car), (7, bus), (9, person)] at instant 5: two cars with
ids [1, 2]. -/
def evTick : DetectionEvent :=
  { camera_id := "CAM_002", camera_name := "Seaport-Airport Rd", lat := 10.0229,
    lng := 76.3095, vehicle_type := .car, count := 2, track_ids := [1, 2],
    timestamp := 5 }

/-! ## Helper lemmas -/

theorem classifyLoc_toPreLoc (p : PreLoc) : (classifyLoc p).toPreLoc = p := by
  simp only [classifyLoc]
  split
  · rfl
  · split <;> rfl

theorem classifyLoc_cases (p : PreLoc) :
    (p.total ≤ p.lanes * 2 ∧ (classifyLoc p).intensity = .low ∧
      (classifyLoc p).weighted_intensity = 0.2) ∨
    (p.lanes * 2 < p.total ∧ p.total ≤ p.lanes * 4 ∧
      (classifyLoc p).intensity = .moderate ∧
      (classifyLoc p).weighted_intensity = 0.5) ∨
    (p.lanes * 4 < p.total ∧ (classifyLoc p).intensity = .congestion ∧
      (classifyLoc p).weighted_intensity = 1) := by
  by_cases h1 : p.total ≤ p.lanes * 2
  · left
    refine ⟨h1, ?_, ?_⟩ <;> norm_num [classifyLoc, h1]
  · by_cases h2 : p.total ≤ p.lanes * 4
    · right; left
      refine ⟨by omega, h2, ?_, ?_⟩ <;> norm_num [classifyLoc, h1, h2]
    · right; right
      refine ⟨by omega, ?_, ?_⟩ <;> norm_num [classifyLoc, h1, h2]

theorem mem_locations_exists_pre {st : AnalyzerState} {now : Int}
    {draw : Nat → Nat} {loc : LocationSnapshot}
    (h : loc ∈ (get_latest_data st now draw).locations) :
    ∃ p : PreLoc, loc = classifyLoc p := by
  simp only [get_latest_data] at h
  split at h
  · simp at h
  · simp only [List.mem_map] at h
    obtain ⟨p, _, hp⟩ := h
    exact ⟨p, hp.symm⟩

/-! ## Claim C3 -/

/-- C3: every location of the aggregate output (lanes already defaulted to 2
where the config lacks them) is classified low with weight 0.2 when
total ≤ lanes*2, moderate with weight 0.5 when lanes*2 < total ≤ lanes*4,
and congestion with weight 1.0 when total > lanes*4; consequently, within
any output, the classification is monotone non-decreasing in total for
fixed lanes. -/
theorem C3_congestion_classification :
    (∀ (st : AnalyzerState) (now : Int) (draw : Nat → Nat),
      ∀ loc ∈ (get_latest_data st now draw).locations,
        (loc.total ≤ loc.lanes * 2 →
          loc.intensity = .low ∧ loc.weighted_intensity = 0.2) ∧
        (loc.lanes * 2 < loc.total → loc.total ≤ loc.lanes * 4 →
          loc.intensity = .moderate ∧ loc.weighted_intensity = 0.5) ∧
        (loc.lanes * 4 < loc.total →
          loc.intensity = .congestion ∧ loc.weighted_intensity = 1)) ∧
    (∀ (st : AnalyzerState) (now : Int) (draw : Nat → Nat),
      ∀ loc ∈ (get_latest_data st now draw).locations,
        ∀ loc' ∈ (get_latest_data st now draw).locations,
          loc.lanes = loc'.lanes → loc.total ≤ loc'.total →
          loc.intensity.rank ≤ loc'.intensity.rank) := by
  have key : ∀ (st : AnalyzerState) (now : Int) (draw : Nat → Nat),
      ∀ loc ∈ (get_latest_data st now draw).locations,
        (loc.total ≤ loc.lanes * 2 →
          loc.intensity = .low ∧ loc.weighted_intensity = 0.2) ∧
        (loc.lanes * 2 < loc.total → loc.total ≤ loc.lanes * 4 →
          loc.intensity = .moderate ∧ loc.weighted_intensity = 0.5) ∧
        (loc.lanes * 4 < loc.total →
          loc.intensity = .congestion ∧ loc.weighted_intensity = 1) := by
    intro st now draw loc hmem
    obtain ⟨p, rfl⟩ := mem_locations_exists_pre hmem
    have htot : (classifyLoc p).total = p.total := by
      rw [show (classifyLoc p).total = (classifyLoc p).toPreLoc.total from rfl,
        classifyLoc_toPreLoc]
    have hlan : (classifyLoc p).lanes = p.lanes := by
      rw [show (classifyLoc p).lanes = (classifyLoc p).toPreLoc.lanes from rfl,
        classifyLoc_toPreLoc]
    rw [htot, hlan]
    rcases classifyLoc_cases p with ⟨h1, hi, hw⟩ | ⟨h1, h2, hi, hw⟩ | ⟨h1, hi, hw⟩
    · exact ⟨fun _ => ⟨hi, hw⟩, fun hlt _ => absurd h1 (by omega),
        fun hlt => absurd h1 (by omega)⟩
    · exact ⟨fun hle => absurd h1 (by omega), fun _ _ => ⟨hi, hw⟩,
        fun hlt => absurd h2 (by omega)⟩
    · exact ⟨fun hle => absurd h1 (by omega), fun _ h2 => absurd h1 (by omega),
        fun _ => ⟨hi, hw⟩⟩
  refine ⟨key, ?_⟩
  intro st now draw loc hmem loc' hmem' hlan htot
  have h := key st now draw loc hmem
  have h' := key st now draw loc' hmem'
  by_cases c1 : loc.total ≤ loc.lanes * 2
  · have hi := (h.1 c1).1
    rw [hi]
    have : Intensity.rank .low = 0 := rfl
    omega
  · by_cases c2 : loc.total ≤ loc.lanes * 4
    · have hi := (h.2.1 (by omega) c2).1
      by_cases c2' : loc'.total ≤ loc'.lanes * 4
      · by_cases c1' : loc'.total ≤ loc'.lanes * 2
        · exact absurd (show loc.total ≤ loc.lanes * 2 by omega) c1
        · have hi' := (h'.2.1 (by omega) c2').1
          rw [hi, hi']
      · have hi' := (h'.2.2 (by omega)).1
        rw [hi, hi']
        exact Nat.le_succ 1
    · have hi := (h.2.2 (by omega)).1
      have c2' : loc'.lanes * 4 < loc'.total := by rw [← hlan]; omega
      have hi' := (h'.2.2 c2').1
      rw [hi, hi']

/-- Witness for C3 at the sample state: the snapshot of the live camera
(total 4, lanes 8, 4 ≤ 8*2) is a member of the sample output and comes out
low with weight 0.2. -/
theorem C3_congestion_classification_witness :
    sampleRealLoc.intensity = Intensity.low ∧
      sampleRealLoc.weighted_intensity = 0.2 :=
  ((C3_congestion_classification.1 stSample 1 (fun _ => 20) sampleRealLoc
    (List.mem_of_mem_head? rfl)).1) (by decide)

/-! ## Claim C7 -/

/-- C7: get_response always returns a string and never propagates an
exception: with no credential configured (model is None) it returns the
fixed apology string without calling out, and when the external call
raises it returns the fixed try-again-later fallback string. -/
theorem C7_chat_error_handling :
    (∀ (gen : String → Except String String) (q : String) (ctx : AggregateOutput),
      get_response none gen q ctx = apologyMsg) ∧
    (∀ (gen : String → Except String String) (q : String) (ctx : AggregateOutput)
      (err : String), gen (full_prompt ctx q) = Except.error err →
        get_response (some ()) gen q ctx = errorMsg) ∧
    (∀ (model : Option Unit) (gen : String → Except String String) (q : String)
      (ctx : AggregateOutput), ∃ s : String, get_response model gen q ctx = s) := by
  refine ⟨fun gen q ctx => rfl, ?_, fun model gen q ctx => ⟨_, rfl⟩⟩
  intro gen q ctx err herr
  simp [get_response, herr]

/-- Witness for C7: with the credential absent the query status? gets the
apology string; with a model whose call raises it gets the fallback. -/
theorem C7_chat_error_handling_witness :
    get_response none (fun _ => Except.error "boom") "status?"
        { total_vehicles := 0, distribution := .zero, locations := [] } = apologyMsg ∧
      get_response (some ()) (fun _ => Except.error "boom") "status?"
        { total_vehicles := 0, distribution := .zero, locations := [] } = errorMsg :=
  ⟨C7_chat_error_handling.1 (fun _ => Except.error "boom") "status?"
      { total_vehicles := 0, distribution := .zero, locations := [] },
    C7_chat_error_handling.2.1 (fun _ => Except.error "boom") "status?"
      { total_vehicles := 0, distribution := .zero, locations := [] } "boom" rfl⟩

/-! ## Claim C8 -/

/-- C8: when the road-geometry fetch fails in any way the function returns
the empty list without raising, the constructor then substitutes the
static 16-point fallback list, and in fact the simulated-node list built
at startup is nonempty whatever the fetch outcome. -/
theorem C8_geometry_fallback :
    fetch_road_geometry (Except.error ()) = [] ∧
      (initDummyNodes (fetch_road_geometry (Except.error ()))).length = 16 ∧
      (∀ resp : Except Unit (List OsmElement),
        0 < (initDummyNodes (fetch_road_geometry resp)).length) := by
  refine ⟨rfl, rfl, fun resp => ?_⟩
  simp only [initDummyNodes, List.length_map, List.enum_length]
  split
  · simp [fallback_road_points]
  · next hne =>
      rcases Nat.eq_zero_or_pos (fetch_road_geometry resp).length with hz | hp
      · rw [List.length_eq_zero] at hz
        rw [hz] at hne
        exact absurd rfl hne
      · exact hp

/-! ## Claim C5 -/

theorem tally_counts_eq_length (dets : List (Nat × String)) :
    ∀ v, (tallyDetections dets).counts v = ((tallyDetections dets).ids v).length := by
  suffices h : ∀ acc : TickTally,
      (∀ v, acc.counts v = (acc.ids v).length) →
      ∀ v, (dets.foldl tallyStep acc).counts v =
        ((dets.foldl tallyStep acc).ids v).length by
    exact h _ (fun _ => rfl)
  induction dets with
  | nil => exact fun acc hacc => hacc
  | cons d rest ih =>
      intro acc hacc
      refine ih _ ?_
      intro v
      unfold tallyStep
      cases labelToType d.2 with
      | none => exact hacc v
      | some t =>
          dsimp only
          by_cases hv : v = t <;> simp [hv, hacc t, hacc v]

/-- C5: every event the real-mode producer emits carries a count equal to
the length of its track-id list and at least 1; no zero-count event per
(camera, type) pair is ever appended. -/
theorem C5_emitted_event_invariant :
    ∀ (cam : CameraConfig) (ts : Int) (dets : List (Nat × String)),
      ∀ e ∈ emittedEvents cam ts dets,
        e.count = e.track_ids.length ∧ 1 ≤ e.count := by
  intro cam ts dets e he
  simp only [emittedEvents] at he
  split at he
  · simp only [List.mem_filterMap] at he
    obtain ⟨v, _, hfv⟩ := he
    split at hfv
    · next hpos =>
        injection hfv with hfv
        subst hfv
        exact ⟨tally_counts_eq_length dets v, hpos⟩
    · exact absurd hfv (by simp)
  · exact absurd he (by simp)

/-- Witness for C5: on the sample detections the first emitted event (two
cars, ids [1, 2]) satisfies the invariant. -/
theorem C5_emitted_event_invariant_witness :
    evTick.count = evTick.track_ids.length ∧ 1 ≤ evTick.count :=
  C5_emitted_event_invariant camDefault 5
    [(1, "car"), (2, "car"), (7, "bus"), (9, "person")] evTick
    (List.mem_of_mem_head? rfl)

/-! ## Claim C6 -/

/-- C6: with no configured cameras and no simulated nodes (and hence, since
every buffered event names a configured camera, an empty buffer), the
aggregation query returns without error: empty locations, all-zero
distribution, and total_vehicles equal to the lifetime distinct-vehicle
count (0 when nothing was ever tracked). -/
theorem C6_zero_locations :
    ∀ (st : AnalyzerState) (now : Int) (draw : Nat → Nat),
      st.camera_config = [] → st.dummy_nodes = [] →
      (∀ e ∈ st.data, ∃ cam ∈ st.camera_config, cam.id = e.camera_id) →
      get_latest_data st now draw =
        { total_vehicles := st.unique_ids.card, distribution := TypeCounts.zero,
          locations := [] } := by
  intro st now draw hcam hdum hdata
  have hd : st.data = [] := by
    cases hst : st.data with
    | nil => rfl
    | cons e rest =>
        obtain ⟨cam, hcmem, _⟩ :=
          hdata e (by rw [hst]; exact List.mem_cons_self e rest)
        rw [hcam] at hcmem
        exact absurd hcmem (List.not_mem_nil cam)
  unfold get_latest_data by_camera
  rw [hcam, hdum, hd]
  rfl

/-- Witness for C6: the totally empty state yields the empty aggregate. -/
theorem C6_zero_locations_witness :
    get_latest_data stEmpty 0 (fun _ => 7) =
      { total_vehicles := 0, distribution := TypeCounts.zero, locations := [] } :=
  C6_zero_locations stEmpty 0 (fun _ => 7) rfl rfl
    (fun e he => absurd he (List.not_mem_nil e))

/-! ## Claim C2 -/

theorem specUnionIds_eq_toFinset (evs : List DetectionEvent) :
    specUnionIds evs = ((evs.map (·.track_ids)).flatten).toFinset := by
  induction evs with
  | nil => rfl
  | cons d rest ih =>
      simp only [specUnionIds, List.foldr_cons, List.map_cons, List.flatten_cons,
        List.toFinset_append]
      rw [← ih]
      rfl

theorem foldr_max_le {l : List Nat} {a : Nat} (h : a ∈ l) : a ≤ l.foldr max 0 := by
  induction l with
  | nil => cases h
  | cons x xs ih =>
      rcases List.mem_cons.mp h with rfl | h
      · exact Nat.le_max_left _ _
      · exact le_trans (ih h) (Nat.le_max_right _ _)

theorem foldr_max_zero_or_mem (l : List Nat) :
    l.foldr max 0 = 0 ∨ l.foldr max 0 ∈ l := by
  induction l with
  | nil => exact Or.inl rfl
  | cons x xs ih =>
      rcases ih with h0 | hm
      · right
        simp only [List.foldr_cons, h0, Nat.max_zero]
        exact List.mem_cons_self x xs
      · rcases max_choice x (xs.foldr max 0) with he | he
        · right
          simp only [List.foldr_cons, he]
          exact List.mem_cons_self x xs
        · right
          simp only [List.foldr_cons, he]
          exact List.mem_cons_of_mem x hm

theorem foldr_max_mem (l : List Nat) (h : l ≠ []) : l.foldr max 0 ∈ l := by
  rcases foldr_max_zero_or_mem l with h0 | hm
  · cases l with
    | nil => exact absurd rfl h
    | cons x xs =>
        have hx : x ≤ (x :: xs).foldr max 0 :=
          foldr_max_le (List.mem_cons_self x xs)
        rw [h0] at hx ⊢
        rw [Nat.le_zero] at hx
        rw [← hx]
        exact List.mem_cons_self x xs
  · exact hm

/-- C2: for every camera and query instant, the snapshot total is
current_load, and current_load is 0 when no recent event of that camera
exists, the cardinality of the union of track ids over the recent events
when that union is nonempty, and otherwise the maximum, over the distinct
timestamps of the recent events, of the per-timestamp sum of counts
(phrased as: an upper bound of all per-timestamp sums that is attained at
the timestamp of some recent event). -/
theorem C2_live_load :
    (∀ (data : List DetectionEvent) (cam : CameraConfig) (now : Int),
      (camSnapshot data cam now).total = current_load data cam.id now) ∧
    (∀ (data : List DetectionEvent) (camId : String) (now : Int),
      (recent_data data camId now = [] → current_load data camId now = 0) ∧
      (specUnionIds (recent_data data camId now) ≠ ∅ →
        current_load data camId now =
          (specUnionIds (recent_data data camId now)).card) ∧
      (recent_data data camId now ≠ [] →
        specUnionIds (recent_data data camId now) = ∅ →
        (∀ d ∈ recent_data data camId now,
          specGroupSum (recent_data data camId now) d.timestamp ≤
            current_load data camId now) ∧
        (∃ d ∈ recent_data data camId now,
          current_load data camId now =
            specGroupSum (recent_data data camId now) d.timestamp))) := by
  refine ⟨fun data cam now => rfl, fun data camId now => ?_⟩
  set recent := recent_data data camId now with hrecent
  have hcard : (specUnionIds recent).card =
      ((recent.map (·.track_ids)).flatten).dedup.length := by
    rw [specUnionIds_eq_toFinset]
    exact List.card_toFinset _
  refine ⟨?_, ?_, ?_⟩
  · intro h
    simp only [current_load, ← hrecent, h, List.isEmpty_nil, if_true]
  · intro hne
    have hlen : ((recent.map (·.track_ids)).flatten).dedup.length ≠ 0 := by
      intro h0
      apply hne
      rw [← Finset.card_eq_zero, hcard]
      exact h0
    have hrecne : recent ≠ [] := by
      intro h0
      apply hne
      rw [h0]
      rfl
    simp only [current_load, ← hrecent]
    rw [if_neg (by simpa [List.isEmpty_iff] using hrecne), if_neg hlen, hcard]
  · intro hrecne hempty
    have hlen : ((recent.map (·.track_ids)).flatten).dedup.length = 0 := by
      rw [← hcard, hempty]
      rfl
    have hload : current_load data camId now =
        ((recent.map (·.timestamp)).dedup.map
          (fun ts => specGroupSum recent ts)).foldr max 0 := by
      simp only [current_load, ← hrecent]
      rw [if_neg (by simpa [List.isEmpty_iff] using hrecne), if_pos hlen]
      rfl
    constructor
    · intro d hd
      rw [hload]
      refine foldr_max_le ?_
      exact List.mem_map_of_mem _ (List.mem_dedup.mpr (List.mem_map_of_mem _ hd))
    · have htsne : (recent.map (·.timestamp)).dedup.map
          (fun ts => specGroupSum recent ts) ≠ [] := by
        intro h0
        rw [List.map_eq_nil_iff, List.dedup_eq_nil, List.map_eq_nil_iff] at h0
        exact hrecne h0
      have hmem := foldr_max_mem _ htsne
      rw [← hload] at hmem
      rw [List.mem_map] at hmem
      obtain ⟨ts, hts, hsum⟩ := hmem
      rw [List.mem_dedup, List.mem_map] at hts
      obtain ⟨d, hd, rfl⟩ := hts
      exact ⟨d, hd, hsum.symm⟩

/-- Witness for C2, the scenario of the specification: ids [1, 2, 3] at
instant 0 and [2, 3, 4] at instant 1 with now = 1 give live load 4, the
cardinality of the union. -/
theorem C2_live_load_witness :
    current_load [evA, evB] "CAM_002" 1 =
      (specUnionIds (recent_data [evA, evB] "CAM_002" 1)).card :=
  ((C2_live_load.2 [evA, evB] "CAM_002" 1).2.1) (by decide)

/-! ## Claim C4 -/

theorem dictGet?_cons {α : Type} (k0 : String) (v0 : α) (d : List (String × α))
    (k : String) :
    dictGet? k ((k0, v0) :: d) = if k0 = k then some v0 else dictGet? k d := by
  simp only [dictGet?, List.find?]
  by_cases h : k0 = k
  · have hb : (k0 == k) = true := beq_iff_eq.mpr h
    rw [if_pos h]
    simp [hb]
  · have hb : (k0 == k) = false := beq_eq_false_iff_ne.mpr h
    rw [if_neg h]
    simp [hb]

theorem dictInsert_cons_hit {α : Type} {k0 k : String} (v : α) (v0 : α)
    (d : List (String × α)) (h : k0 = k) :
    dictInsert k v ((k0, v0) :: d) = (k, v) :: d := by
  simp [dictInsert, h]

theorem dictInsert_cons_miss {α : Type} {k0 k : String} (v : α) (v0 : α)
    (d : List (String × α)) (h : ¬ k0 = k) :
    dictInsert k v ((k0, v0) :: d) = (k0, v0) :: dictInsert k v d := by
  simp [dictInsert, h]

theorem mem_dictInsert {α : Type} {k0 : String} {v0 : α} {k : String} {v : α}
    {d : List (String × α)} (h : (k, v) ∈ dictInsert k0 v0 d) :
    (k = k0 ∧ v = v0) ∨ (k, v) ∈ d := by
  induction d with
  | nil =>
      simp only [dictInsert, List.mem_singleton] at h
      injection h with h1 h2
      exact Or.inl ⟨h1, h2⟩
  | cons p rest ih =>
      obtain ⟨k1, v1⟩ := p
      by_cases h1 : k1 = k0
      · rw [dictInsert_cons_hit _ _ _ h1] at h
        rcases List.mem_cons.mp h with he | hm
        · injection he with ha hb
          exact Or.inl ⟨ha, hb⟩
        · exact Or.inr (List.mem_cons_of_mem _ hm)
      · rw [dictInsert_cons_miss _ _ _ h1] at h
        rcases List.mem_cons.mp h with he | hm
        · exact Or.inr (he ▸ List.mem_cons_self _ _)
        · rcases ih hm with h' | h'
          · exact Or.inl h'
          · exact Or.inr (List.mem_cons_of_mem _ h')

theorem dictGet?_insert {α : Type} (k k' : String) (v : α)
    (d : List (String × α)) :
    dictGet? k (dictInsert k' v d) = if k' = k then some v else dictGet? k d := by
  induction d with
  | nil =>
      rw [show dictInsert k' v ([] : List (String × α)) = [(k', v)] from rfl,
        dictGet?_cons]
  | cons p rest ih =>
      obtain ⟨k0, v0⟩ := p
      by_cases h0 : k0 = k'
      · rw [dictInsert_cons_hit _ _ _ h0, dictGet?_cons, dictGet?_cons]
        by_cases h : k' = k
        · rw [if_pos h, if_pos h]
        · have hk0 : ¬ k0 = k := fun he => h (by rw [← h0]; exact he)
          rw [if_neg h, if_neg h, if_neg hk0]
      · rw [dictInsert_cons_miss _ _ _ h0, dictGet?_cons, dictGet?_cons, ih]
        by_cases hk0 : k0 = k
        · have hk' : ¬ k' = k := fun he => h0 (by rw [hk0, he])
          rw [if_pos hk0, if_neg hk', if_pos hk0]
        · rw [if_neg hk0, if_neg hk0]

theorem mem_foldl_dictInsert {α β : Type}
    (key : β → String) (val : β → α) (l : List β) :
    ∀ (acc : List (String × α)) (k : String) (v : α),
      (k, v) ∈ l.foldl (fun a b => dictInsert (key b) (val b) a) acc →
      (k, v) ∈ acc ∨ ∃ b ∈ l, k = key b ∧ v = val b := by
  induction l with
  | nil => exact fun acc k v h => Or.inl h
  | cons b rest ih =>
      intro acc k v h
      rcases ih _ k v h with hacc | ⟨b', hb', hkv⟩
      · rcases mem_dictInsert hacc with ⟨rfl, rfl⟩ | hmem
        · exact Or.inr ⟨b, List.mem_cons_self b rest, rfl, rfl⟩
        · exact Or.inl hmem
      · exact Or.inr ⟨b', List.mem_cons_of_mem b hb', hkv⟩

theorem dictGet?_foldl_some {α β : Type}
    (key : β → String) (val : β → α) (l : List β) :
    ∀ (acc : List (String × α)) (k : String),
      ((∃ b ∈ l, key b = k) ∨ ∃ v, dictGet? k acc = some v) →
      ∃ v, dictGet? k (l.foldl (fun a b => dictInsert (key b) (val b) a) acc) =
        some v := by
  induction l with
  | nil =>
      intro acc k h
      rcases h with ⟨b, hb, _⟩ | hv
      · exact absurd hb (List.not_mem_nil b)
      · exact hv
  | cons b rest ih =>
      intro acc k h
      apply ih
      rcases h with ⟨b', hb', hk⟩ | ⟨v, hv⟩
      · rcases List.mem_cons.mp hb' with rfl | hb'
        · exact Or.inr ⟨val b', by rw [dictGet?_insert, if_pos hk]⟩
        · exact Or.inl ⟨b', hb', hk⟩
      · by_cases hk : key b = k
        · exact Or.inr ⟨val b, by rw [dictGet?_insert, if_pos hk]⟩
        · exact Or.inr ⟨v, by rw [dictGet?_insert, if_neg hk]; exact hv⟩

theorem dictGet?_foldl_none {α β : Type}
    (key : β → String) (val : β → α) (l : List β) :
    ∀ (acc : List (String × α)) (k : String),
      (∀ b ∈ l, key b ≠ k) → dictGet? k acc = none →
      dictGet? k (l.foldl (fun a b => dictInsert (key b) (val b) a) acc) =
        none := by
  induction l with
  | nil => exact fun acc k _ h => h
  | cons b rest ih =>
      intro acc k hne h
      apply ih
      · exact fun b' hb' => hne b' (List.mem_cons_of_mem b hb')
      · rw [dictGet?_insert, if_neg (hne b (List.mem_cons_self b rest))]
        exact h

theorem get_latest_data_total_eq (st : AnalyzerState) (now : Int)
    (draw : Nat → Nat)
    (hne : (get_latest_data st now draw).locations ≠ []) :
    (get_latest_data st now draw).total_vehicles =
      match dictGet? "CAM_002" (by_camera st now) with
      | some loc => loc.total
      | none => 0 := by
  simp only [get_latest_data] at hne ⊢
  split at hne
  · exact absurd rfl hne
  · next h => rw [if_neg h]

theorem by_camera_lookup_total {st : AnalyzerState} {now : Int} {v : PreLoc}
    (h : dictGet? "CAM_002" (by_camera st now) = some v) :
    v.total = current_load st.data "CAM_002" now := by
  have hfind := h
  unfold dictGet? at hfind
  obtain ⟨p, hp⟩ := Option.map_eq_some'.mp hfind
  have hpmem : p ∈ by_camera st now := List.mem_of_find?_eq_some hp.1
  have hpk := List.find?_some hp.1
  unfold by_camera at hpmem
  obtain ⟨k, v'⟩ := p
  rcases mem_foldl_dictInsert (fun c => c.id)
      (fun c => camSnapshot st.data c now) st.camera_config [] k v' hpmem with
    hacc | ⟨cam, _, hk, hv⟩
  · exact absurd hacc (List.not_mem_nil _)
  · have hid : cam.id = "CAM_002" := by
      rw [← hk]
      exact eq_of_beq hpk
    have hv2 : v = v' := hp.2.symm
    rw [hv2, hv]
    show current_load st.data cam.id now = current_load st.data "CAM_002" now
    rw [hid]

/-- C4: whenever the aggregate has at least one location, its total_vehicles
field is the live load of the designated primary camera CAM_002 (0 when no
config entry with that id exists, hence no per-camera snapshot); and it is
not the sum of the totals of all locations, as the sample state shows. -/
theorem C4_dashboard_total :
    (∀ (st : AnalyzerState) (now : Int) (draw : Nat → Nat),
      (get_latest_data st now draw).locations ≠ [] →
      ((∃ cam ∈ st.camera_config, cam.id = "CAM_002") →
        (get_latest_data st now draw).total_vehicles =
          current_load st.data "CAM_002" now) ∧
      ((∀ cam ∈ st.camera_config, cam.id ≠ "CAM_002") →
        (get_latest_data st now draw).total_vehicles = 0)) ∧
    (get_latest_data stSample 1 (fun _ => 20)).total_vehicles ≠
      ((get_latest_data stSample 1 (fun _ => 20)).locations.map
        (fun loc => loc.total)).sum := by
  constructor
  · intro st now draw hne
    constructor
    · intro ⟨cam, hcam, hid⟩
      rw [get_latest_data_total_eq st now draw hne]
      obtain ⟨v, hv⟩ := dictGet?_foldl_some (fun c => c.id)
        (fun c => camSnapshot st.data c now) st.camera_config [] "CAM_002"
        (Or.inl ⟨cam, hcam, hid⟩)
      rw [show by_camera st now = st.camera_config.foldl
        (fun a c => dictInsert c.id (camSnapshot st.data c now) a) [] from rfl,
        hv]
      exact by_camera_lookup_total hv
    · intro hnone
      rw [get_latest_data_total_eq st now draw hne]
      rw [show by_camera st now = st.camera_config.foldl
        (fun a c => dictInsert c.id (camSnapshot st.data c now) a) [] from rfl,
        dictGet?_foldl_none (fun c => c.id)
          (fun c => camSnapshot st.data c now) st.camera_config [] "CAM_002"
          hnone rfl]
  · intro h
    have h4 : (get_latest_data stSample 1 (fun _ => 20)).total_vehicles = 4 := by
      decide
    have h24 : ((get_latest_data stSample 1 (fun _ => 20)).locations.map
        (fun loc => loc.total)).sum = 24 := by
      decide
    rw [h4, h24] at h
    exact absurd h (by decide)

/-- Witness for C4 at the sample state: total_vehicles is exactly the live
load of CAM_002 there. -/
theorem C4_dashboard_total_witness :
    (get_latest_data stSample 1 (fun _ => 20)).total_vehicles =
      current_load stSample.data "CAM_002" 1 :=
  (C4_dashboard_total.1 stSample 1 (fun _ => 20)
      (fun h => absurd (congrArg List.length h) (by decide))).1
    ⟨camDefault, List.mem_of_mem_head? rfl, rfl⟩

/-! ## Claim C9 -/

/-- C9: on every query, the simulated node at index i appears in the output
with total equal to the freshly drawn value (in [5, 50] whenever the draws
respect the randint range), lanes 2, and the all-car breakdown; the stored
node list is unchanged by the query, so the drawn value is not persisted. -/
theorem C9_simulated_nodes :
    ∀ (st : AnalyzerState) (now : Int) (draw : Nat → Nat) (i : Nat)
      (node : DummyNode),
      (∀ j, 5 ≤ draw j ∧ draw j ≤ 50) →
      st.dummy_nodes[i]? = some node →
      classifyLoc (dummySnapshot node (draw i)) ∈
          (get_latest_data st now draw).locations ∧
        (dummySnapshot node (draw i)).total = draw i ∧
        5 ≤ (dummySnapshot node (draw i)).total ∧
        (dummySnapshot node (draw i)).total ≤ 50 ∧
        (dummySnapshot node (draw i)).lanes = 2 ∧
        (dummySnapshot node (draw i)).breakdown =
          { car := draw i, bike := 0, bus := 0, truck := 0 } ∧
        (get_latest_data_st st now draw).2.dummy_nodes = st.dummy_nodes := by
  intro st now draw i node hrange hget
  have henum : (i, node) ∈ st.dummy_nodes.enum :=
    List.mk_mem_enum_iff_getElem?.mpr hget
  have hmemdummy : dummySnapshot node (draw i) ∈
      st.dummy_nodes.enum.map (fun p => dummySnapshot p.2 (draw p.1)) :=
    List.mem_map_of_mem _ henum
  have hall : dummySnapshot node (draw i) ∈
      ((by_camera st now).map (fun p => p.2)).map
          (assignSourceType st.camera_config) ++
        st.dummy_nodes.enum.map (fun p => dummySnapshot p.2 (draw p.1)) :=
    List.mem_append_right _ hmemdummy
  have hne : (((by_camera st now).map (fun p => p.2)).map
        (assignSourceType st.camera_config) ++
      st.dummy_nodes.enum.map (fun p => dummySnapshot p.2 (draw p.1))) ≠ [] :=
    List.ne_nil_of_mem hall
  refine ⟨?_, rfl, (hrange i).1, (hrange i).2, rfl, rfl, rfl⟩
  simp only [get_latest_data]
  rw [if_neg (by simpa [List.isEmpty_iff] using hne)]
  exact List.mem_map_of_mem _ hall

/-- Witness for C9: the sample node with draw 20 appears classified in the
sample output. -/
theorem C9_simulated_nodes_witness :
    classifyLoc (dummySnapshot sampleNode 20) ∈
      (get_latest_data stSample 1 (fun _ => 20)).locations :=
  (C9_simulated_nodes stSample 1 (fun _ => 20) 0 sampleNode
    (fun _ => ⟨show 5 ≤ 20 by decide, show 20 ≤ 50 by decide⟩) rfl).1

/-! ## Claim C10 -/

/-- C10: the aggregation query is read-only on the analyzer state: the event
buffer, the global unique-id set, the camera configuration, the
simulated-node list, and the frame buffer are all unchanged. -/
theorem C10_query_read_only :
    ∀ (st : AnalyzerState) (now : Int) (draw : Nat → Nat),
      (get_latest_data_st st now draw).2.data = st.data ∧
      (get_latest_data_st st now draw).2.unique_ids = st.unique_ids ∧
      (get_latest_data_st st now draw).2.camera_config = st.camera_config ∧
      (get_latest_data_st st now draw).2.dummy_nodes = st.dummy_nodes ∧
      (get_latest_data_st st now draw).2.current_frames = st.current_frames :=
  fun _ _ _ => ⟨rfl, rfl, rfl, rfl, rfl⟩

/-! ## Claim C1 -/

/-- C1 as stated is false for the real-mode store: from a full store of 2000
events, one AI frame appending four events (one per vehicle type) runs
only two single-pop prune checks and leaves 2002 events, above the cap. -/
theorem C1_event_store_counterexample :
    ¬ ((realFrameTick fullStore evBatch).length ≤ 2000) := by
  have hL : (fullStore ++ evBatch).length = 2004 := by
    rw [List.length_append,
      show fullStore = List.replicate 2000 evA from rfl,
      List.length_replicate]
    norm_num [evBatch]
  have h1 : realFrameTick fullStore evBatch =
      ((fullStore ++ evBatch).drop 1).drop 1 := by
    unfold realFrameTick appendEventsReal frameStorePrune pruneOnce
    rw [if_pos (show 2000 < (fullStore ++ evBatch).length by rw [hL]; norm_num)]
    rw [if_pos (show 2000 < ((fullStore ++ evBatch).drop 1).length by
      rw [List.length_drop, hL]; norm_num)]
  have h2 : (realFrameTick fullStore evBatch).length = 2002 := by
    rw [h1, List.length_drop, List.length_drop, hL]
  intro hle
  rw [h2] at hle
  omega

set_option maxRecDepth 4000 in
theorem mockRun_suffix (ticks : List (List DetectionEvent)) :
    ∀ store : List DetectionEvent,
      (∀ t ∈ ticks, t.length ≤ 1) → store.length ≤ 1000 →
      ticks.foldl mockTick store =
        (store ++ ticks.flatten).drop ((store ++ ticks.flatten).length - 1000) := by
  induction ticks with
  | nil =>
      intro store _ hlen
      simp only [List.foldl_nil, List.flatten_nil, List.append_nil]
      rw [Nat.sub_eq_zero_of_le hlen, List.drop_zero]
  | cons t rest ih =>
      intro store hle hlen
      have hte : t.length ≤ 1 := hle t (List.mem_cons_self t rest)
      have hstep : mockTick store t =
          (store ++ t).drop ((store ++ t).length - 1000) := by
        unfold mockTick pruneOnce
        by_cases h : 1000 < (store ++ t).length
        · rw [if_pos h]
          have he : (store ++ t).length - 1000 = 1 := by
            rw [List.length_append] at h ⊢
            omega
          rw [he]
        · rw [if_neg h]
          have he : (store ++ t).length - 1000 = 0 := by omega
          rw [he, List.drop_zero]
      have hlen' : (mockTick store t).length ≤ 1000 := by
        rw [hstep, List.length_drop, List.length_append]
        omega
      rw [List.foldl_cons,
        ih (mockTick store t)
          (fun t' ht' => hle t' (List.mem_cons_of_mem t ht')) hlen',
        hstep, List.flatten_cons, ← List.append_assoc]
      have hd : (store ++ t).length - 1000 ≤ (store ++ t).length :=
        Nat.sub_le _ _
      rw [← List.drop_append_of_le_length hd]
      rw [List.drop_drop
        ((((store ++ t) ++ rest.flatten).drop
          ((store ++ t).length - 1000)).length - 1000)
        ((store ++ t).length - 1000) ((store ++ t) ++ rest.flatten)]
      have hidx : (store ++ t).length - 1000 +
          ((((store ++ t) ++ rest.flatten).drop
            ((store ++ t).length - 1000)).length - 1000) =
          ((store ++ t) ++ rest.flatten).length - 1000 := by
        simp only [List.length_drop, List.length_append]
        omega
      rw [hidx]

/-- C1 corrected: evictions always come off the front, oldest first (any
real-mode tick yields a suffix of old store ++ new events, at most two
events shorter), and in simulated mode, where each tick appends at most
one event, a run from the empty store retains exactly the most recently
appended 1000 events; but each prune check pops at most one event, so a
real-mode tick that appends more than two events on a full store leaves it
above the 2000 cap (see the counterexample). -/
theorem C1_event_store_amended :
    (∀ data newEvents : List DetectionEvent,
      ∃ k ≤ 2, realFrameTick data newEvents = (data ++ newEvents).drop k) ∧
    (∀ ticks : List (List DetectionEvent),
      (∀ t ∈ ticks, t.length ≤ 1) →
      mockRun ticks [] =
        ticks.flatten.drop (ticks.flatten.length - 1000)) := by
  constructor
  · intro data newEvents
    unfold realFrameTick frameStorePrune appendEventsReal pruneOnce
    by_cases h1 : 2000 < (data ++ newEvents).length
    · rw [if_pos h1]
      by_cases h2 : 2000 < ((data ++ newEvents).drop 1).length
      · rw [if_pos h2]
        exact ⟨2, by omega, by rw [List.drop_drop]⟩
      · rw [if_neg h2]
        exact ⟨1, by omega, rfl⟩
    · rw [if_neg h1, if_neg h1]
      exact ⟨0, by omega, (List.drop_zero _).symm⟩
  · intro ticks hle
    have h := mockRun_suffix ticks [] hle (by simp)
    simpa using h

/-- Witness for C1 amended: two single-event simulated ticks from the empty
store leave exactly the two appended events. -/
theorem C1_event_store_amended_witness :
    mockRun [[evA], [evB]] [] = [evA, evB] :=
  (C1_event_store_amended.2 [[evA], [evB]] (by decide)).trans rfl

end TrafficAI
